import Mathlib

/-!
Verification development for the Cloud-281 smart-car audio surveillance
platform.  The PostgreSQL schema (database/schema.sql) and the dashboard
front-end are embedded from the repository's source; the event-pipeline
components (classification worker, alert rule engine, acknowledge endpoint)
are shipped as external services whose source is not in the repository
snapshot, so they are modelled from the design specification, as marked on
each definition.
-/

namespace Cloud281

/-! ## Schema embedding (from `schema.sql`, the `alert` table and its indexes) -/

/-- A row of the `alert` table, columns as declared in `CREATE TABLE alert`.
`DECIMAL(5,4)` is modelled as `ℤ` in units of `10⁻⁴` (so `0.9500` is `9500`),
`TIMESTAMP` as `ℕ`, nullable columns as `Option`; the `location POINT` column
is omitted and the `metadata JSONB` column is modelled as the optional
last-seen timestamp the rule engine keeps in it. -/
structure AlertRow where
  alert_id : String
  vehicle_id : String
  detection_id : Option String
  alert_type : String
  severity : String
  sound_label : String
  confidence : Option ℤ
  message : Option String
  status : String
  notified_owner : Bool
  notified_service : Bool
  acknowledged_by : Option String
  acknowledged_at : Option ℕ
  resolved_at : Option ℕ
  created_at : ℕ
  metadata : Option ℕ
deriving DecidableEq, Repr

/-- The `CHECK` constraint on `alert.alert_type`. -/
def alertTypeValues : List String :=
  ["emergency", "safety", "mechanical", "security", "maintenance"]

/-- The `CHECK` constraint on `alert.severity`. -/
def severityValues : List String := ["low", "medium", "high", "critical"]

/-- The `CHECK` constraint on `alert.status`. -/
def alertStatusValues : List String :=
  ["new", "under_review", "acknowledged", "escalated", "closed"]

/-- Row-level constraints of `CREATE TABLE alert`: the three `CHECK (... IN ...)`
clauses.  (`NOT NULL` columns are non-`Option` fields of `AlertRow`.) -/
def alertRowOK (r : AlertRow) : Bool :=
  alertTypeValues.contains r.alert_type &&
  severityValues.contains r.severity &&
  alertStatusValues.contains r.status

/-- A secondary index declaration, as in the schema's `CREATE INDEX` lines. -/
structure IndexSpec where
  name : String
  cols : List String
  unique : Bool
deriving DecidableEq, Repr

/-- The indexes declared on `alert` in the schema: `idx_alert_vehicle`,
`idx_alert_status`, `idx_alert_created`.  All are plain `CREATE INDEX`
(non-unique, no `WHERE` clause). -/
def alertIndexes : List IndexSpec :=
  [⟨"idx_alert_vehicle", ["vehicle_id"], false⟩,
   ⟨"idx_alert_status", ["status"], false⟩,
   ⟨"idx_alert_created", ["created_at"], false⟩]

/-- Value of an `alert` column as a string, for index-key projection. -/
def colValue (r : AlertRow) (c : String) : String :=
  if c = "alert_id" then r.alert_id
  else if c = "vehicle_id" then r.vehicle_id
  else if c = "alert_type" then r.alert_type
  else if c = "severity" then r.severity
  else if c = "sound_label" then r.sound_label
  else if c = "status" then r.status
  else if c = "created_at" then toString r.created_at
  else ""

/-- Pairwise distinctness of a list of keys. -/
def distinctKeys : List (List String) → Bool
  | [] => true
  | k :: ks => (!ks.contains k) && distinctKeys ks

/-- Constraint contributed by one declared index: a unique index forbids two
rows with the same key; a non-unique index constrains nothing. -/
def indexOK (rows : List AlertRow) (ix : IndexSpec) : Bool :=
  if ix.unique then distinctKeys (rows.map (fun r => ix.cols.map (colValue r)))
  else true

/-- All constraints the schema declares on the `alert` table: the row
`CHECK`s, the `PRIMARY KEY (alert_id)`, and every declared index. -/
def alertTableOK (rows : List AlertRow) : Bool :=
  rows.all alertRowOK &&
  distinctKeys (rows.map (fun r => [r.alert_id])) &&
  alertIndexes.all (indexOK rows)

/-- Stated from the specification's words, for comparison with the schema:
a uniqueness constraint on `(vehicle_id, sound_label)` among non-closed
alerts ("a conditional insert guarded by a uniqueness constraint on
(vehicle, label) among non-closed alerts"). -/
def openVehicleLabelUnique (rows : List AlertRow) : Bool :=
  distinctKeys
    ((rows.filter (fun r => r.status != "closed")).map
      (fun r => [r.vehicle_id, r.sound_label]))

/-! ## Alert Rule Engine (component B) -/

/-- A row of the `detection` table (schema columns; `DECIMAL(5,4)` confidence
in units of `10⁻⁴`, `TIMESTAMP` as `ℕ`). -/
structure Detection where
  detection_id : String
  vehicle_id : String
  sound_label : String
  confidence : ℤ
  model_version : String
  timestamp : ℕ
  status : String
deriving DecidableEq, Repr

/-- A row of the `rule` table (schema columns needed by the engine). -/
structure Rule where
  rule_id : String
  tenant_id : String
  rule_name : String
  sound_label : String
  threshold : ℤ
  severity : String
  alert_type : String
  notify_owner : Bool
  notify_service : Bool
  is_active : Bool
  updated_at : ℕ
deriving DecidableEq, Repr

/-- Modelled from the spec: Step 1 of `evaluate` — the active rules configured
for the resolved tenant and the detection's label. -/
def activeRulesFor (rules : List Rule) (tid lbl : String) : List Rule :=
  rules.filter (fun r => r.is_active && r.tenant_id = tid && r.sound_label = lbl)

/-- Modelled from the spec: the deterministic tie-break between two matching
active rules — highest threshold wins, ties broken by most-recently-updated. -/
def betterRule (a b : Rule) : Rule :=
  if a.threshold < b.threshold then b
  else if b.threshold = a.threshold && a.updated_at < b.updated_at then b
  else a

/-- Modelled from the spec: pick the single rule consulted for a detection. -/
def pickRule : List Rule → Option Rule
  | [] => none
  | r :: rs => some (rs.foldl betterRule r)

/-- An alert is open while its status is not `closed`
(`new`/`under_review`/`acknowledged`/`escalated`). -/
def isOpenFor (v lbl : String) (a : AlertRow) : Bool :=
  a.vehicle_id = v && a.sound_label = lbl && a.status != "closed"

/-- Modelled from the spec: Step 3's dedup test — does an open alert for the
same `(vehicle, label)` already exist in the alert store? -/
def hasOpenAlert (store : List AlertRow) (v lbl : String) : Bool :=
  store.any (isOpenFor v lbl)

/-- Number of open alerts for a `(vehicle, label)` pair in the store. -/
def countOpen (store : List AlertRow) (v lbl : String) : ℕ :=
  store.countP (fun a => isOpenFor v lbl a)

/-- Modelled from the spec: refreshing the existing open alert's last-seen
metadata when a duplicate detection arrives while it is open. -/
def refreshOpen (store : List AlertRow) (d : Detection) : List AlertRow :=
  store.map (fun a =>
    if isOpenFor d.vehicle_id d.sound_label a then
      { a with metadata := some d.timestamp }
    else a)

/-- Modelled from the spec: Step 5 — the emitted alert, with status `new`,
severity and alert type taken verbatim from the matched rule, and the
notified flags from the rule's notify flags. -/
def mkAlert (r : Rule) (d : Detection) (now : ℕ) : AlertRow :=
  { alert_id := "AL-" ++ d.detection_id
    vehicle_id := d.vehicle_id
    detection_id := some d.detection_id
    alert_type := r.alert_type
    severity := r.severity
    sound_label := d.sound_label
    confidence := some d.confidence
    message := some ("Detected " ++ d.sound_label)
    status := "new"
    notified_owner := r.notify_owner
    notified_service := r.notify_service
    acknowledged_by := none
    acknowledged_at := none
    resolved_at := none
    created_at := now
    metadata := none }

/-- Modelled from the spec: `evaluate(detection) -> Option<Alert>`, §4.2, with
the alert store threaded through.  Step 1 resolves the tenant owning the
detection's vehicle and looks up the active rules (tenant unresolvable or no
active rule ⇒ no alert, never fatal); Step 2 is the threshold test; Step 3 the
dedup check against open alerts for the same `(vehicle, label)` — a duplicate
refreshes the open alert's last-seen metadata instead of inserting; Steps 4–5
build and persist the alert.  Returns the updated store and the emitted
alert, if any. -/
def evaluateDetection (resolveTenant : String → Option String) (rules : List Rule)
    (store : List AlertRow) (d : Detection) (now : ℕ) :
    List AlertRow × Option AlertRow :=
  match resolveTenant d.vehicle_id with
  | none => (store, none)
  | some tid =>
    match pickRule (activeRulesFor rules tid d.sound_label) with
    | none => (store, none)
    | some r =>
      if d.confidence < r.threshold then (store, none)
      else if hasOpenAlert store d.vehicle_id d.sound_label then
        (refreshOpen store d, none)
      else
        let a := mkAlert r d now
        (store ++ [a], some a)

/-- Modelled from the spec: the engine contract `evaluate(detection) ->
Option<Alert>` — the alert emitted by `evaluateDetection`, if any. -/
def evaluate (resolveTenant : String → Option String) (rules : List Rule)
    (store : List AlertRow) (d : Detection) (now : ℕ) : Option AlertRow :=
  (evaluateDetection resolveTenant rules store d now).2

/-! ## Classification Worker (component A) -/

/-- A row of the `ingestion_job` table (schema columns the worker touches;
`TIMESTAMP` as `ℕ`, nullable `processed_at` as `Option ℕ`). -/
structure Job where
  job_id : String
  vehicle_id : String
  device_id : String
  s3_key : String
  status : String
  created_at : ℕ
  processed_at : Option ℕ
deriving DecidableEq, Repr

/-- The worker-visible state: the job store and the detection store. -/
structure WStore where
  jobs : List Job
  detections : List Detection
deriving DecidableEq, Repr

/-- Modelled from the spec: §7's failure taxonomy for the fetch/classify path
— transient (retryable) versus permanent (fatal). -/
inductive PipelineFailure
  | transient
  | permanent
deriving DecidableEq, Repr

/-- Whether a failure may be redriven by the queue layer. -/
def PipelineFailure.retryable : PipelineFailure → Bool
  | .transient => true
  | .permanent => false

/-- Modelled from the spec: the worker contract's result,
`processMessage(jobRef) -> ClassificationOutcome`.  `processed n` means the
job completed with `n` detections created; `ackAlreadyHandled` is the no-op
acknowledgement on idempotent redelivery; `failedJob` carries the
retryable-vs-fatal distinction for the queue layer. -/
inductive ClassificationOutcome
  | processed (n : ℕ)
  | ackAlreadyHandled
  | failedJob (retryable : Bool)
deriving DecidableEq, Repr

/-- Modelled from the spec: validity of a detection at the storage gate —
confidence within `[0, 1]` (here `[0, 10000]` in `10⁻⁴` units) and label in
the configured taxonomy. -/
def validDetection (taxonomy : List String) (d : Detection) : Bool :=
  decide ((0 : ℤ) ≤ d.confidence) && decide (d.confidence ≤ 10000) &&
  taxonomy.contains d.sound_label

/-- Modelled from the spec: the single write gate for the detection store —
a detection with out-of-range confidence or an out-of-taxonomy label is
rejected (a permanent data failure, §7) and never persisted. -/
def insertDetection (taxonomy : List String) (ds : List Detection)
    (d : Detection) : List Detection :=
  if validDetection taxonomy d then ds ++ [d] else ds

/-- Modelled from the spec: the detection row the worker creates for a
classifier output pair `(label, confidence)` of a job. -/
def mkDetection (j : Job) (mv : String) (now idx : ℕ)
    (pair : String × ℤ) : Detection :=
  { detection_id := j.job_id ++ "-" ++ toString idx
    vehicle_id := j.vehicle_id
    sound_label := pair.1
    confidence := pair.2
    model_version := mv
    timestamp := now
    status := "completed" }

/-- Look a job up by its reference. -/
def findJob (st : WStore) (ref : String) : Option Job :=
  st.jobs.find? (fun j => j.job_id = ref)

/-- Update the job with the given id: set its status, and its processed
timestamp when it reaches a terminal status. -/
def setJobStatus (st : WStore) (ref s : String) (t : ℕ) : WStore :=
  { st with
    jobs := st.jobs.map (fun j =>
      if j.job_id = ref then
        { j with
          status := s
          processed_at :=
            if s = "completed" || s = "failed" then some t else j.processed_at }
      else j) }

/-- Modelled from the spec: `processMessage(jobRef)`, §4.1.  The classifier
call (storage fetch + scoring) is the opaque argument `classified`:
`Except.ok` carries the `(label, confidence)` pairs, `Except.error` a
fetch/classify failure.  A missing job or a job not in `pending` is an
idempotent no-op that acknowledges the message; a `pending` job is claimed
(`pending → processing`), then on success every pair is written through the
validating detection gate and the job is marked `completed`; on error the job
is marked `failed` with its processed timestamp set, no detections are
created, and the retryable-vs-fatal distinction is propagated. -/
def processMessage (taxonomy : List String)
    (classified : Except PipelineFailure (List (String × ℤ)))
    (mv : String) (now : ℕ) (st : WStore) (ref : String) :
    WStore × ClassificationOutcome :=
  match findJob st ref with
  | none => (st, .ackAlreadyHandled)
  | some j =>
    if j.status != "pending" then (st, .ackAlreadyHandled)
    else
      match classified with
      | .error e => (setJobStatus st ref "failed" now, .failedJob e.retryable)
      | .ok pairs =>
        let ds := (pairs.enum.map (fun p => mkDetection j mv now p.1 p.2)).foldl
          (insertDetection taxonomy) []
        let st2 := setJobStatus st ref "completed" now
        ({ st2 with detections := st2.detections ++ ds }, .processed ds.length)

/-! ## Concurrency boundary: the job-status compare-and-set (§5)

Modelled from the spec: concurrent worker instances racing on one job are
modelled by an arbitrary interleaving of their atomic steps on the job's
status — the compare-and-set `pending → processing` and the winner's
terminal transition `processing → completed`.  Each step is atomic, so any
concurrent execution linearises to a list of steps. -/

/-- An atomic step on the shared job status: a worker's compare-and-set
attempt, or the claim winner finishing the job. -/
inductive WStep
  | cas
  | fin
deriving DecidableEq, Repr

/-- One atomic step on `(status, number of successful CAS attempts)`:
`cas` succeeds exactly on a `pending` status and is otherwise a no-op that
leaves the status unchanged; `fin` moves `processing` to `completed`. -/
def stepJob : String × ℕ → WStep → String × ℕ
  | (s, n), .cas => if s = "pending" then ("processing", n + 1) else (s, n)
  | (s, n), .fin => if s = "processing" then ("completed", n) else (s, n)

/-- Run an interleaved trace of atomic steps from a starting status. -/
def runTrace (s : String) (tr : List WStep) : String × ℕ :=
  tr.foldl stepJob (s, 0)

/-- Does a trace contain at least one compare-and-set attempt? -/
def hasCas : List WStep → Bool
  | [] => false
  | .cas :: _ => true
  | .fin :: tr => hasCas tr

/-! ## Operator actions on alerts (§6) -/

/-- Rank of an alert status along the monotonic chain
`new → under_review → acknowledged|escalated → closed`. -/
def statusRank (s : String) : ℕ :=
  if s = "new" then 0
  else if s = "under_review" then 1
  else if s = "acknowledged" then 2
  else if s = "escalated" then 2
  else if s = "closed" then 3
  else 0

/-- Modelled from the spec: an operator action on an alert — a validated
status update, or an acknowledgement recording the acknowledger and time. -/
inductive AlertOp
  | setStatus (target : String) (t : ℕ)
  | acknowledgeOp (user : String) (t : ℕ)
deriving DecidableEq, Repr

/-- Modelled from the spec: applying one operator action.  A status update is
validated — the target must be a legal status and the move must not regress
along the chain (last-writer-wins on equal rank is acceptable, §5); an
acknowledgement is refused on a `closed` alert (§6) and otherwise sets
status, acknowledger and timestamp.  A refused action leaves the alert
unchanged. -/
def applyOp (a : AlertRow) : AlertOp → AlertRow
  | .setStatus target t =>
    if alertStatusValues.contains target &&
        decide (statusRank a.status ≤ statusRank target) then
      { a with
        status := target
        resolved_at := if target = "closed" then some t else a.resolved_at }
    else a
  | .acknowledgeOp user t =>
    if a.status = "closed" then a
    else
      { a with
        status := "acknowledged"
        acknowledged_by := some user
        acknowledged_at := some t }

/-- Apply a sequence of operator actions. -/
def applyOps (a : AlertRow) (ops : List AlertOp) : AlertRow :=
  ops.foldl applyOp a

/-- Modelled from the spec: the acknowledge endpoint (§6) — rejected with a
conflict error when the alert is already `closed`, otherwise sets
`status = acknowledged` and records the acknowledger and timestamp. -/
def acknowledgeAlert (a : AlertRow) (user : String) (t : ℕ) :
    Except String AlertRow :=
  if a.status = "closed" then .error "conflict"
  else
    .ok { a with
          status := "acknowledged"
          acknowledged_by := some user
          acknowledged_at := some t }

/-- Modelled from the spec: acknowledging an alert in the store — on a
conflict the store is returned unchanged alongside the error. -/
def acknowledgeInStore (store : List AlertRow) (id user : String) (t : ℕ) :
    List AlertRow × Except String Unit :=
  match store.find? (fun a => a.alert_id = id) with
  | none => (store, .error "not_found")
  | some a =>
    match acknowledgeAlert a user t with
    | .error e => (store, .error e)
    | .ok a2 =>
      (store.map (fun b => if b.alert_id = id then a2 else b), .ok ())

/-! ## Dashboard alerts page (from the front-end's `fetchAlerts`) -/

/-- An alert as returned by `GET /v1/alerts`, the fields `fetchAlerts`
reads.  `priority` may be absent (`null`/`undefined`) or empty. -/
structure ApiAlert where
  alert_id : String
  alert_type : String
  priority : Option String
  severity : String
  sound_label : String
  status : String
deriving DecidableEq, Repr

/-- JavaScript `x || dflt` on a nullable string: `null`, `undefined` and the
empty string are falsy. -/
def jsOr (v : Option String) (dflt : String) : String :=
  match v with
  | some s => if s = "" then dflt else s
  | none => dflt

/-- The `priority` the page computes:
`alert.priority || (severity === 'critical' ? 'high' : severity === 'high' ?
'high' : severity === 'medium' ? 'medium' : 'low')`. -/
def apiPriority (a : ApiAlert) : String :=
  jsOr a.priority
    (if a.severity = "critical" then "high"
     else if a.severity = "high" then "high"
     else if a.severity = "medium" then "medium"
     else "low")

/-- The display category (`type`) `fetchAlerts` assigns: `Emergency` when
`alert_type === 'emergency'`, else `High priority` when the computed priority
is `high`, else `Low risk`. -/
def alertDisplayType (a : ApiAlert) : String :=
  if a.alert_type = "emergency" then "Emergency"
  else if apiPriority a = "high" then "High priority"
  else "Low risk"

/-! ## Concrete instances for the scenario theorems -/

/-- Tenant resolution placing every vehicle with tenant `tenant-1`. -/
def resolveT1 : String → Option String := fun _ => some "tenant-1"

/-- The siren rule of the configured rule table: threshold `0.90`, severity
`high`, alert type `emergency`. -/
def sirenRule : Rule :=
  { rule_id := "R-siren"
    tenant_id := "tenant-1"
    rule_name := "Siren Detection"
    sound_label := "siren"
    threshold := 9000
    severity := "high"
    alert_type := "emergency"
    notify_owner := true
    notify_service := false
    is_active := true
    updated_at := 0 }

/-- Scenario A's detection: `siren` at confidence `0.95` on `CAR-1`. -/
def sirenDetection : Detection :=
  { detection_id := "D-1"
    vehicle_id := "CAR-1"
    sound_label := "siren"
    confidence := 9500
    model_version := "v1"
    timestamp := 100
    status := "completed" }

/-- A `siren` detection exactly at the rule threshold `0.90`. -/
def boundaryDetection : Detection :=
  { sirenDetection with detection_id := "D-2", confidence := 9000 }

/-- A `siren` detection below the rule threshold, at confidence `0.85`. -/
def lowDetection : Detection :=
  { sirenDetection with detection_id := "D-3", confidence := 8500 }

/-- An open (`new`) alert for `(CAR-2, engine_fault)`. -/
def engineAlert : AlertRow :=
  { alert_id := "A-1"
    vehicle_id := "CAR-2"
    detection_id := some "D-10"
    alert_type := "mechanical"
    severity := "high"
    sound_label := "engine_fault"
    confidence := some 9000
    message := some "Detected engine_fault"
    status := "new"
    notified_owner := true
    notified_service := true
    acknowledged_by := none
    acknowledged_at := none
    resolved_at := none
    created_at := 50
    metadata := none }

/-- A second open alert for the same `(CAR-2, engine_fault)` pair, with a
distinct primary key. -/
def engineAlertDup : AlertRow :=
  { engineAlert with alert_id := "A-2", detection_id := some "D-11" }

/-- A second `engine_fault` detection on `CAR-2` arriving while
`engineAlert` is still open. -/
def engineDetection : Detection :=
  { detection_id := "D-11"
    vehicle_id := "CAR-2"
    sound_label := "engine_fault"
    confidence := 9200
    model_version := "v1"
    timestamp := 55
    status := "completed" }

/-- A closed alert. -/
def closedAlert : AlertRow :=
  { engineAlert with alert_id := "A-3", status := "closed", resolved_at := some 90 }

/-- A pending ingestion job. -/
def pendingJob : Job :=
  { job_id := "J-1"
    vehicle_id := "CAR-1"
    device_id := "DEV-1"
    s3_key := "CAR-1/1.wav"
    status := "pending"
    created_at := 10
    processed_at := none }

/-- The same job already claimed by a worker (`processing`). -/
def processingJob : Job := { pendingJob with status := "processing" }

/-- The same job after completion. -/
def completedJob : Job :=
  { pendingJob with status := "completed", processed_at := some 20 }

/-- A worker store holding only the pending job. -/
def stPending : WStore := { jobs := [pendingJob], detections := [] }

/-- A worker store holding the job mid-processing. -/
def stProcessing : WStore := { jobs := [processingJob], detections := [] }

/-- A worker store holding the completed job. -/
def stCompleted : WStore := { jobs := [completedJob], detections := [] }

/-- The configured sound taxonomy of the rule table. -/
def soundTaxonomy : List String :=
  ["engine_fault", "brake_issue", "tire_problem", "siren", "collision",
   "glass_break", "distress_call"]

/-- An API alert with no explicit priority, severity `critical`, alert type
`mechanical`. -/
def apiAlertEx : ApiAlert :=
  { alert_id := "A-9"
    alert_type := "mechanical"
    priority := none
    severity := "critical"
    sound_label := "engine_fault"
    status := "new" }

/-! ## Helper lemmas -/

/-- A store with a positive open-alert count passes the dedup test. -/
theorem hasOpen_of_countOpen_pos {store : List AlertRow} {v lbl : String}
    (h : 0 < countOpen store v lbl) : hasOpenAlert store v lbl = true := by
  unfold countOpen at h
  unfold hasOpenAlert
  rw [List.any_eq_true]
  obtain ⟨a, ha, hp⟩ := List.countP_pos_iff.mp h
  exact ⟨a, ha, hp⟩

/-- Refreshing last-seen metadata changes no alert's vehicle, label or
status, so open-alert counts are preserved. -/
theorem countOpen_refreshOpen (store : List AlertRow) (d : Detection)
    (v lbl : String) :
    countOpen (refreshOpen store d) v lbl = countOpen store v lbl := by
  unfold countOpen refreshOpen
  rw [List.countP_map]
  apply List.countP_congr
  intro a _
  simp only [Function.comp_apply]
  split
  · simp [isOpenFor]
  · rfl

/-! ## C1 -/

/-- C1: against an active matched rule and with no open duplicate alert for
the detection's `(vehicle, label)`, `evaluate` returns no alert exactly when
`detection.confidence < rule.threshold` and returns the alert built from the
rule when `confidence ≥ threshold` — the boundary `confidence = threshold`
falls in the alert-producing case. -/
theorem c1_threshold_test (resolveTenant : String → Option String)
    (rules : List Rule) (store : List AlertRow) (d : Detection) (now : ℕ)
    (tid : String) (r : Rule)
    (hres : resolveTenant d.vehicle_id = some tid)
    (hrule : pickRule (activeRulesFor rules tid d.sound_label) = some r)
    (hdup : hasOpenAlert store d.vehicle_id d.sound_label = false) :
    (d.confidence < r.threshold →
      evaluate resolveTenant rules store d now = none) ∧
    (r.threshold ≤ d.confidence →
      evaluate resolveTenant rules store d now = some (mkAlert r d now)) := by
  unfold evaluate evaluateDetection
  simp only [hres, hrule]
  constructor
  · intro hlt
    rw [if_pos hlt]
  · intro hge
    rw [if_neg (not_lt.mpr hge)]
    simp [hdup]

/-- Witness for C1: the siren rule at threshold `0.90` — confidence `0.85`
yields no alert, the boundary confidence `0.90` yields one. -/
theorem c1_threshold_test_witness :
    evaluate resolveT1 [sirenRule] [] lowDetection 100 = none ∧
    evaluate resolveT1 [sirenRule] [] boundaryDetection 100 =
      some (mkAlert sirenRule boundaryDetection 100) := by
  constructor
  · exact (c1_threshold_test resolveT1 [sirenRule] [] lowDetection 100
      "tenant-1" sirenRule rfl rfl rfl).1 (by decide)
  · exact (c1_threshold_test resolveT1 [sirenRule] [] boundaryDetection 100
      "tenant-1" sirenRule rfl rfl rfl).2 (by decide)

/-! ## C2 -/

/-- C2 counterexample: the repository's `alert` table declares only plain
(non-unique) indexes, so a store holding two open alerts for the same
`(vehicle, label)` pair satisfies every constraint the schema declares,
while the uniqueness constraint claimed by the specification rejects it —
the dedup is not enforced by a uniqueness constraint in the alert store. -/
theorem c2_no_unique_open_constraint :
    alertTableOK [engineAlert, engineAlertDup] = true ∧
    openVehicleLabelUnique [engineAlert, engineAlertDup] = false := by decide

/-- C2 (amended): while exactly one open alert for a `(vehicle, label)` pair
exists, evaluating a further detection for that pair emits no new alert —
the engine's dedup check refreshes the existing alert — so exactly one open
alert for the pair exists afterwards.  (The enforcement is the engine's
check-then-refresh, not a store-level uniqueness constraint.) -/
theorem c2_open_alert_dedup (resolveTenant : String → Option String)
    (rules : List Rule) (store : List AlertRow) (d : Detection) (now : ℕ)
    (hopen : countOpen store d.vehicle_id d.sound_label = 1) :
    evaluate resolveTenant rules store d now = none ∧
    countOpen (evaluateDetection resolveTenant rules store d now).1
      d.vehicle_id d.sound_label = 1 := by
  have hdup : hasOpenAlert store d.vehicle_id d.sound_label = true :=
    hasOpen_of_countOpen_pos (by omega)
  unfold evaluate evaluateDetection
  constructor
  · split
    · rfl
    · split
      · rfl
      · split
        · rfl
        · rfl
  · split
    · exact hopen
    · split
      · exact hopen
      · split
        · exact hopen
        · show countOpen (refreshOpen store d) d.vehicle_id d.sound_label = 1
          rw [countOpen_refreshOpen]
          exact hopen

/-- Witness for C2: a second `engine_fault` detection on `CAR-2` while one
open alert for `(CAR-2, engine_fault)` exists emits nothing and leaves
exactly one open alert. -/
theorem c2_open_alert_dedup_witness :
    evaluate resolveT1 [sirenRule] [engineAlert] engineDetection 55 = none ∧
    countOpen (evaluateDetection resolveT1 [sirenRule] [engineAlert]
      engineDetection 55).1 "CAR-2" "engine_fault" = 1 := by
  have h := c2_open_alert_dedup resolveT1 [sirenRule] [engineAlert]
    engineDetection 55 (by decide)
  exact ⟨h.1, h.2⟩

/-! ## C3 -/

/-- Every status other than `closed` sits strictly below the top of the
chain. -/
theorem statusRank_le_two_of_ne_closed {s : String} (h : s ≠ "closed") :
    statusRank s ≤ 2 := by
  unfold statusRank
  split_ifs <;> omega

/-- Only `closed` reaches the top rank of the chain. -/
theorem eq_closed_of_rank_ge {s : String} (h : 3 ≤ statusRank s) :
    s = "closed" := by
  by_contra hne
  have h2 := statusRank_le_two_of_ne_closed hne
  omega

/-- One operator action never lowers the status rank. -/
theorem applyOp_rank_le (a : AlertRow) (op : AlertOp) :
    statusRank a.status ≤ statusRank (applyOp a op).status := by
  cases op with
  | setStatus target t =>
    simp only [applyOp]
    split
    · next h =>
      simp only [Bool.and_eq_true, decide_eq_true_eq] at h
      exact h.2
    · exact le_refl _
  | acknowledgeOp user t =>
    simp only [applyOp]
    split
    · exact le_refl _
    · next h =>
      have hr : statusRank "acknowledged" = 2 := rfl
      show statusRank a.status ≤ statusRank "acknowledged"
      rw [hr]
      exact statusRank_le_two_of_ne_closed h

/-- One operator action never reopens a closed alert. -/
theorem applyOp_closed (a : AlertRow) (op : AlertOp) (h : a.status = "closed") :
    (applyOp a op).status = "closed" := by
  have h3 : 3 ≤ statusRank a.status := by rw [h]; decide
  exact eq_closed_of_rank_ge (le_trans h3 (applyOp_rank_le a op))

/-- One operator action never touches the alert's originating fields. -/
theorem applyOp_fields (a : AlertRow) (op : AlertOp) :
    (applyOp a op).alert_type = a.alert_type ∧
    (applyOp a op).sound_label = a.sound_label ∧
    (applyOp a op).detection_id = a.detection_id := by
  cases op <;> simp only [applyOp] <;> split <;> exact ⟨rfl, rfl, rfl⟩

/-- C3: over any sequence of operator actions, an alert's status rank is
monotone along `new → under_review → acknowledged|escalated → closed`, a
`closed` alert stays `closed` (so no sequence returns it to `new`), and the
originating fields — alert type, label, detection reference — are never
changed after creation. -/
theorem c3_status_monotonic (a : AlertRow) (ops : List AlertOp) :
    statusRank a.status ≤ statusRank (applyOps a ops).status ∧
    (a.status = "closed" → (applyOps a ops).status = "closed") ∧
    (applyOps a ops).alert_type = a.alert_type ∧
    (applyOps a ops).sound_label = a.sound_label ∧
    (applyOps a ops).detection_id = a.detection_id := by
  induction ops generalizing a with
  | nil => exact ⟨le_refl _, fun h => h, rfl, rfl, rfl⟩
  | cons op rest ih =>
    have hstep : applyOps a (op :: rest) = applyOps (applyOp a op) rest := rfl
    obtain ⟨ih1, ih2, ih3, ih4, ih5⟩ := ih (applyOp a op)
    obtain ⟨hf1, hf2, hf3⟩ := applyOp_fields a op
    rw [hstep]
    exact ⟨le_trans (applyOp_rank_le a op) ih1,
      fun h => ih2 (applyOp_closed a op h),
      ih3.trans hf1, ih4.trans hf2, ih5.trans hf3⟩

/-- Witness for C3: attempting to move a closed alert back to `new` leaves it
`closed`. -/
theorem c3_status_monotonic_witness :
    closedAlert.status = "closed" ∧
    (applyOps closedAlert [AlertOp.setStatus "new" 99]).status = "closed" :=
  ⟨rfl, (c3_status_monotonic closedAlert [AlertOp.setStatus "new" 99]).2.1 rfl⟩

/-! ## C4 and C5 -/

/-- C4: when the fetch/classify call fails on a pending job, the job is
marked `failed` with its processed timestamp set, no detections are created,
and the outcome carries the retryable-vs-fatal distinction of the failure. -/
theorem c4_error_branch (taxonomy : List String) (e : PipelineFailure)
    (mv : String) (now : ℕ) (st : WStore) (ref : String) (j : Job)
    (hfind : findJob st ref = some j) (hpend : j.status = "pending") :
    (processMessage taxonomy (.error e) mv now st ref).2 =
      .failedJob e.retryable ∧
    (processMessage taxonomy (.error e) mv now st ref).1.detections =
      st.detections ∧
    ∀ j2 ∈ (processMessage taxonomy (.error e) mv now st ref).1.jobs,
      j2.job_id = ref → j2.status = "failed" ∧ j2.processed_at = some now := by
  have hb : (j.status != "pending") = false := by rw [hpend]; rfl
  unfold processMessage
  simp only [hfind, hb, Bool.false_eq_true, if_false]
  refine ⟨by trivial, by trivial, ?_⟩
  intro j2 hmem hid
  unfold setJobStatus at hmem
  simp only [List.mem_map] at hmem
  obtain ⟨j0, hj0, heq⟩ := hmem
  by_cases hj : j0.job_id = ref
  · rw [if_pos hj] at heq
    rw [← heq]
    exact ⟨rfl, rfl⟩
  · rw [if_neg hj] at heq
    rw [← heq] at hid
    exact absurd hid hj

/-- Witness for C4: a transient storage failure on the pending job leaves
zero detections and reports a retryable failure. -/
theorem c4_error_branch_witness :
    (processMessage soundTaxonomy (.error .transient) "v1" 20 stPending
      "J-1").2 = .failedJob true ∧
    (processMessage soundTaxonomy (.error .transient) "v1" 20 stPending
      "J-1").1.detections = [] := by
  have h := c4_error_branch soundTaxonomy .transient "v1" 20 stPending "J-1"
    pendingJob rfl rfl
  exact ⟨h.1, h.2.1⟩

/-- C5: redelivering a job reference whose job is already `processing`,
`completed` or `failed` is a no-op that acknowledges the message — the store
is returned unchanged (no job mutation, no new detections). -/
theorem c5_idempotent_redelivery (taxonomy : List String)
    (classified : Except PipelineFailure (List (String × ℤ)))
    (mv : String) (now : ℕ) (st : WStore) (ref : String) (j : Job)
    (hfind : findJob st ref = some j)
    (hstat : j.status = "processing" ∨ j.status = "completed" ∨
      j.status = "failed") :
    processMessage taxonomy classified mv now st ref =
      (st, .ackAlreadyHandled) := by
  have hb : (j.status != "pending") = true := by
    rcases hstat with h | h | h <;> rw [h] <;> rfl
  unfold processMessage
  simp only [hfind, hb, if_true]

/-- Witness for C5: redelivering the completed job acknowledges without any
change. -/
theorem c5_idempotent_redelivery_witness :
    processMessage soundTaxonomy (.ok [("siren", 9500)]) "v1" 20 stCompleted
      "J-1" = (stCompleted, .ackAlreadyHandled) :=
  c5_idempotent_redelivery soundTaxonomy (.ok [("siren", 9500)]) "v1" 20
    stCompleted "J-1" completedJob rfl (Or.inr (Or.inl rfl))

/-! ## C6 -/

/-- C6: acknowledging a `closed` alert is rejected with a conflict error and
the store is unchanged; acknowledging a non-closed alert succeeds, setting
`status = acknowledged` and recording the acknowledger and timestamp while
leaving the originating fields untouched. -/
theorem c6_acknowledge_conflict (a : AlertRow) (store : List AlertRow)
    (user : String) (t : ℕ) :
    (a.status = "closed" →
      acknowledgeAlert a user t = .error "conflict" ∧
      (store.find? (fun b => b.alert_id = a.alert_id) = some a →
        acknowledgeInStore store a.alert_id user t =
          (store, .error "conflict"))) ∧
    (a.status ≠ "closed" →
      ∃ a2, acknowledgeAlert a user t = .ok a2 ∧
        a2.status = "acknowledged" ∧ a2.acknowledged_by = some user ∧
        a2.acknowledged_at = some t ∧ a2.alert_type = a.alert_type ∧
        a2.sound_label = a.sound_label ∧ a2.detection_id = a.detection_id) := by
  constructor
  · intro h
    have he : acknowledgeAlert a user t = .error "conflict" := by
      unfold acknowledgeAlert
      rw [if_pos h]
    refine ⟨he, ?_⟩
    intro hfind
    unfold acknowledgeInStore
    simp only [hfind, he]
  · intro h
    refine ⟨{ a with
                status := "acknowledged"
                acknowledged_by := some user
                acknowledged_at := some t },
      ?_, rfl, rfl, rfl, rfl, rfl, rfl⟩
    unfold acknowledgeAlert
    rw [if_neg h]

/-- Witness for C6: acknowledging the closed alert conflicts; acknowledging
the open `engine_fault` alert succeeds. -/
theorem c6_acknowledge_conflict_witness :
    acknowledgeAlert closedAlert "U-1" 200 = .error "conflict" ∧
    ∃ a2, acknowledgeAlert engineAlert "U-1" 200 = .ok a2 ∧
      a2.status = "acknowledged" := by
  constructor
  · exact ((c6_acknowledge_conflict closedAlert [] "U-1" 200).1 rfl).1
  · obtain ⟨a2, h1, h2, _⟩ :=
      (c6_acknowledge_conflict engineAlert [] "U-1" 200).2 (by decide)
    exact ⟨a2, h1, h2⟩

/-! ## C7 -/

/-- C7: evaluating `detection(label=siren, confidence=0.95, vehicle=CAR-1)`
against `rule(threshold=0.90, severity=high, type=emergency)` with no open
duplicate yields exactly one alert, with severity `high`, alert type
`emergency` and status `new`, the severity and type being equal to the
matched rule's fields (copied verbatim, not recomputed from confidence). -/
theorem c7_siren_scenario :
    evaluate resolveT1 [sirenRule] [] sirenDetection 100 =
      some (mkAlert sirenRule sirenDetection 100) ∧
    (evaluateDetection resolveT1 [sirenRule] [] sirenDetection 100).1 =
      [mkAlert sirenRule sirenDetection 100] ∧
    (mkAlert sirenRule sirenDetection 100).severity = "high" ∧
    (mkAlert sirenRule sirenDetection 100).alert_type = "emergency" ∧
    (mkAlert sirenRule sirenDetection 100).status = "new" ∧
    (mkAlert sirenRule sirenDetection 100).severity = sirenRule.severity ∧
    (mkAlert sirenRule sirenDetection 100).alert_type =
      sirenRule.alert_type := by
  decide

/-! ## C8 -/

/-- Folding classifier outputs through the validating detection gate keeps
the detection store all-valid: invalid rows are rejected, never persisted. -/
theorem foldl_insertDetection_all_valid (taxonomy : List String)
    (l : List Detection) :
    ∀ acc, acc.all (validDetection taxonomy) = true →
      (l.foldl (insertDetection taxonomy) acc).all
        (validDetection taxonomy) = true := by
  induction l with
  | nil => exact fun acc h => h
  | cons d rest ih =>
    intro acc h
    simp only [List.foldl_cons]
    apply ih
    unfold insertDetection
    split
    · next hv =>
      rw [List.all_append]
      simp [h, hv]
    · exact h

/-- C8: the worker's write path preserves validity of the detection store —
if every persisted detection has confidence within `[0, 1]` and a label in
the configured taxonomy, then after any `processMessage` run this still
holds; out-of-taxonomy or out-of-range classifier outputs are rejected
before storage. -/
theorem c8_detection_validity (taxonomy : List String)
    (classified : Except PipelineFailure (List (String × ℤ)))
    (mv : String) (now : ℕ) (st : WStore) (ref : String)
    (hinv : st.detections.all (validDetection taxonomy) = true) :
    (processMessage taxonomy classified mv now st ref).1.detections.all
      (validDetection taxonomy) = true := by
  unfold processMessage
  split
  · exact hinv
  · split
    · exact hinv
    · split
      · exact hinv
      · next pairs =>
        show ((setJobStatus st ref "completed" now).detections ++
          ((pairs.enum.map _).foldl (insertDetection taxonomy) [])).all
            (validDetection taxonomy) = true
        rw [List.all_append]
        refine (Bool.and_eq_true _ _).mpr ⟨hinv, ?_⟩
        exact foldl_insertDetection_all_valid taxonomy _ [] rfl

/-- Witness for C8: a classifier output containing an unknown label and an
out-of-range confidence leaves only valid detections in the store. -/
theorem c8_detection_validity_witness :
    (processMessage soundTaxonomy
      (.ok [("siren", 9500), ("unknown_label", 9999), ("engine_fault", 20000)])
      "v1" 20 stPending "J-1").1.detections.all
        (validDetection soundTaxonomy) = true :=
  c8_detection_validity soundTaxonomy
    (.ok [("siren", 9500), ("unknown_label", 9999), ("engine_fault", 20000)])
    "v1" 20 stPending "J-1" rfl

/-! ## C9 -/

/-- After the job leaves `pending`, no further compare-and-set attempt
succeeds and the status never returns to `pending`. -/
theorem foldl_stepJob_nonpending (tr : List WStep) :
    ∀ s n, s ≠ "pending" →
      (tr.foldl stepJob (s, n)).2 = n ∧
      (tr.foldl stepJob (s, n)).1 ≠ "pending" := by
  induction tr with
  | nil => exact fun s n h => ⟨rfl, h⟩
  | cons step rest ih =>
    intro s n h
    cases step with
    | cas =>
      simp only [List.foldl_cons, stepJob]
      rw [if_neg h]
      exact ih s n h
    | fin =>
      simp only [List.foldl_cons, stepJob]
      by_cases hp : s = "processing"
      · rw [if_pos hp]
        exact ih "completed" n (by decide)
      · rw [if_neg hp]
        exact ih s n h

/-- C9: in any interleaving of atomic steps by concurrent workers on a job
starting at `pending`, exactly one compare-and-set attempt succeeds (one if
any attempt occurs, none otherwise); and a worker that finds the job already
claimed (`processing`) acknowledges the message as already handled, leaving
the store — jobs and detections — untouched. -/
theorem c9_single_cas_winner :
    (∀ tr : List WStep,
      (runTrace "pending" tr).2 = if hasCas tr then 1 else 0) ∧
    (∀ (taxonomy : List String)
      (classified : Except PipelineFailure (List (String × ℤ)))
      (mv : String) (now : ℕ) (st : WStore) (ref : String) (j : Job),
      findJob st ref = some j → j.status = "processing" →
      processMessage taxonomy classified mv now st ref =
        (st, .ackAlreadyHandled)) := by
  constructor
  · intro tr
    induction tr with
    | nil => rfl
    | cons step rest ih =>
      cases step with
      | cas =>
        show (rest.foldl stepJob (stepJob ("pending", 0) .cas)).2 =
          if hasCas (WStep.cas :: rest) then 1 else 0
        have h1 : stepJob ("pending", 0) WStep.cas = ("processing", 1) := rfl
        have h2 : hasCas (WStep.cas :: rest) = true := rfl
        rw [h1, h2, if_pos rfl]
        exact (foldl_stepJob_nonpending rest "processing" 1 (by decide)).1
      | fin =>
        show (rest.foldl stepJob (stepJob ("pending", 0) .fin)).2 =
          if hasCas (WStep.fin :: rest) then 1 else 0
        have h1 : stepJob ("pending", 0) WStep.fin = ("pending", 0) := rfl
        have h2 : hasCas (WStep.fin :: rest) = hasCas rest := rfl
        rw [h1, h2]
        exact ih
  · intro taxonomy classified mv now st ref j hfind hstat
    have hb : (j.status != "pending") = true := by rw [hstat]; rfl
    unfold processMessage
    simp only [hfind, hb, if_true]

/-- Witness for C9: a trace with three compare-and-set attempts records
exactly one success, and a worker seeing the claimed job acknowledges it
with the store unchanged. -/
theorem c9_single_cas_winner_witness :
    (runTrace "pending" [WStep.cas, WStep.cas, WStep.fin, WStep.cas]).2 = 1 ∧
    processMessage soundTaxonomy (.ok [("siren", 9500)]) "v1" 20 stProcessing
      "J-1" = (stProcessing, .ackAlreadyHandled) := by
  constructor
  · have h := c9_single_cas_winner.1 [WStep.cas, WStep.cas, WStep.fin, WStep.cas]
    rw [h]
    rfl
  · exact c9_single_cas_winner.2 soundTaxonomy (.ok [("siren", 9500)]) "v1" 20
      stProcessing "J-1" processingJob rfl rfl

/-! ## C10 -/

/-- C10: the category the alerts page displays is a total deterministic
function of the fetched alert's fields — `Emergency` exactly when
`alert_type = emergency`; otherwise `High priority` exactly when the
computed priority is `high`, where a missing priority defaults from
severity (`critical`/`high` to `high`, `medium` to `medium`, anything else
to `low`); and `Low risk` in all remaining cases. -/
theorem c10_display_category (a : ApiAlert) :
    (alertDisplayType a = "Emergency" ↔ a.alert_type = "emergency") ∧
    (a.alert_type ≠ "emergency" →
      (alertDisplayType a = "High priority" ↔ apiPriority a = "high")) ∧
    (a.alert_type ≠ "emergency" → apiPriority a ≠ "high" →
      alertDisplayType a = "Low risk") ∧
    (a.priority = none →
      apiPriority a =
        (if a.severity = "critical" ∨ a.severity = "high" then "high"
         else if a.severity = "medium" then "medium" else "low")) := by
  refine ⟨?_, ?_, ?_, ?_⟩
  · unfold alertDisplayType
    by_cases h : a.alert_type = "emergency"
    · simp [h]
    · rw [if_neg h]
      constructor
      · intro hd
        exfalso
        by_cases hp : apiPriority a = "high"
        · rw [if_pos hp] at hd
          exact absurd hd (by decide)
        · rw [if_neg hp] at hd
          exact absurd hd (by decide)
      · intro he
        exact absurd he h
  · intro h
    unfold alertDisplayType
    rw [if_neg h]
    constructor
    · intro hd
      by_cases hp : apiPriority a = "high"
      · exact hp
      · rw [if_neg hp] at hd
        exact absurd hd (by decide)
    · intro hp
      rw [if_pos hp]
  · intro h hp
    unfold alertDisplayType
    rw [if_neg h, if_neg hp]
  · intro h
    unfold apiPriority jsOr
    rw [h]
    by_cases h1 : a.severity = "critical"
    · simp [h1]
    · by_cases h2 : a.severity = "high"
      · simp [h1, h2]
      · by_cases h3 : a.severity = "medium"
        · simp [h1, h2, h3]
        · simp [h1, h2, h3]

/-- Witness for C10: an alert with no stored priority, severity `critical`
and a non-emergency type is displayed as `High priority`. -/
theorem c10_display_category_witness :
    alertDisplayType apiAlertEx = "High priority" ∧
    apiPriority apiAlertEx = "high" := by
  have hp : apiPriority apiAlertEx = "high" := rfl
  exact ⟨((c10_display_category apiAlertEx).2.1 (by decide)).mpr hp, hp⟩

end Cloud281
